import Mathlib

/-!
Verification development for the MACSima instrument-run parser
(`src/macsima_parser.py`).  The Python module is shallowly embedded:
JSON-like values become the inductive type `JVal`, Python dicts with
string keys become association lists (`Dict`), dicts keyed by arbitrary
JSON values (the derived reagent lookups) become `JDict`, and fallible
Python code (code that can raise `AttributeError` / `KeyError` /
`TypeError`) is modelled with `Except String`.

Modelling conventions, all chosen to match CPython semantics on the
operations this program actually performs:
* Python booleans are represented as numbers (`True` = 1, `False` = 0),
  consistent with Python where `True == 1`; numbers are rationals.
* Arrays and objects are encoded with cons-cell constructors
  (`nilA`/`consA`, `nilO`/`consO`) instead of nested `List` arguments so
  that equality of values is a plain derived `DecidableEq` that computes
  in the kernel; `JVal.arrOf` / `JVal.objOf` build them from lists and
  `arrElems` / `objEntries` read them back.
* `dict.get(k, d)` on a genuine dict is total (`dget`); `.get` on a
  non-dict raises `AttributeError` and is modelled by `pyGetD` / `asObj`
  returning `Except.error`.
* Assignment to a dict key keeps the position of an existing key and
  appends a fresh key at the end (`dset`), exactly like CPython
  insertion order.
* Using an unhashable value (a list or a dict) as a dict key raises
  `TypeError` in Python; `pyDictGet` models this.
* `x * y / 100` on non-numeric operands is modelled as a `TypeError`:
  in Python a string/list can be "multiplied" by an int, but the
  subsequent division by 100 then raises `TypeError`, so the composed
  expression errors in every non-number case, which is what the model
  returns directly.
-/

deriving instance DecidableEq for Except

/-! Kernel-computable rational arithmetic.  `Rat.add` / `Rat.mul` /
`Rat.inv` are `@[irreducible]`, so the handful of arithmetic operations
the parser performs are expressed through the reducible smart
constructor `mkRat`; bridge lemmas below identify them with the usual
field operations on `ℚ`. -/

set_option maxHeartbeats 400000 in
/-- Model of the Python expression `a * b / 100` on numbers. -/
def pyMulDiv100 (a b : ℚ) : ℚ :=
  mkRat (a.num * b.num) (a.den * b.den * 100)

/-- Computable `x * 1000`. -/
def qScale1000 (x : ℚ) : ℚ := mkRat (x.num * 1000) x.den

/-- Computable `x / 1000`. -/
def qDiv1000 (x : ℚ) : ℚ := mkRat x.num (x.den * 1000)

/-- Computable `(z : ℚ) / 1000`. -/
def qOfIntDiv1000 (z : ℤ) : ℚ := mkRat z 1000

/-- JSON-like Python values.  Arrays and objects are cons-cell encoded
(see the module comment); only values built by `arrOf` / `objOf` occur. -/
inductive JVal : Type where
  | null  : JVal
  | num   : ℚ → JVal
  | str   : String → JVal
  | nilA  : JVal
  | consA : JVal → JVal → JVal
  | nilO  : JVal
  | consO : String → JVal → JVal → JVal
  deriving DecidableEq, Repr

/-- A Python dict with string keys, in insertion order. -/
abbrev Dict := List (String × JVal)

/-- A Python dict keyed by arbitrary JSON values (used for the derived
reagent lookups). -/
abbrev JDict := List (JVal × JVal)

/-- Build an array value from a list. -/
def JVal.arrOf : List JVal → JVal
  | [] => .nilA
  | v :: rest => .consA v (JVal.arrOf rest)

/-- Build an object value from an association list. -/
def JVal.objOf : Dict → JVal
  | [] => .nilO
  | (k, v) :: rest => .consO k v (JVal.objOf rest)

/-- Read back the elements of an array value (`none` on non-arrays). -/
def arrElems : JVal → Option (List JVal)
  | .nilA => some []
  | .consA v tl => (arrElems tl).map (fun l => v :: l)
  | _ => none

/-- Read back the entries of an object value (`none` on non-objects). -/
def objEntries : JVal → Option Dict
  | .nilO => some []
  | .consO k v tl => (objEntries tl).map (fun l => (k, v) :: l)
  | _ => none

/-- Model of `d.get(k)` returning `None`-as-absent: the first binding of
`k`, if any. -/
def dgetOpt (d : Dict) (k : String) : Option JVal :=
  (d.find? (fun kv => kv.1 == k)).map (fun kv => kv.2)

/-- Model of `d.get(k, dflt)` on a dict. -/
def dget (d : Dict) (k : String) (dflt : JVal) : JVal :=
  (dgetOpt d k).getD dflt

/-- Model of `d[k] = v` on a dict: overwrite in place, else append. -/
def dset (d : Dict) (k : String) (v : JVal) : Dict :=
  if d.any (fun kv => kv.1 == k) then
    d.map (fun kv => if kv.1 == k then (k, v) else kv)
  else d ++ [(k, v)]

/-- Model of `d.update(u)` on dicts. -/
def dupdate (d u : Dict) : Dict :=
  u.foldl (fun acc kv => dset acc kv.1 kv.2) d

/-- Python hashability: lists and dicts cannot be dict keys. -/
def hashable : JVal → Bool
  | .nilA => false
  | .consA _ _ => false
  | .nilO => false
  | .consO _ _ _ => false
  | _ => true

/-- Lookup in a JSON-keyed dict: the first binding of `k`, if any. -/
def jgetOpt (d : JDict) (k : JVal) : Option JVal :=
  (d.find? (fun kv => kv.1 == k)).map (fun kv => kv.2)

/-- Model of `d.get(k, dflt)` for JSON-keyed dicts (hashability is
checked separately by `pyDictGet`). -/
def jget (d : JDict) (k : JVal) (dflt : JVal) : JVal :=
  (jgetOpt d k).getD dflt

/-- Model of `d[k] = v` for JSON-keyed dicts. -/
def jset (d : JDict) (k v : JVal) : JDict :=
  if d.any (fun kv => kv.1 == k) then
    d.map (fun kv => if kv.1 == k then (k, v) else kv)
  else d ++ [(k, v)]

/-- Model of `d.get(k, dflt)` where the key may be unhashable. -/
def pyDictGet (d : JDict) (k : JVal) (dflt : JVal) : Except String JVal :=
  if hashable k then .ok (jget d k dflt) else .error "TypeError: unhashable type"

/-- Python truthiness of a JSON value. -/
def truthy : JVal → Bool
  | .null => false
  | .num q => q != 0
  | .str s => s != ""
  | .nilA => false
  | .consA _ _ => true
  | .nilO => false
  | .consO _ _ _ => true

/-- Model of values that must be dicts before a `.get` / `.values()`
call (`AttributeError` otherwise). -/
def asObj (v : JVal) : Except String Dict :=
  match objEntries v with
  | some d => .ok d
  | none => .error "AttributeError: object has no attribute get"

/-- Model of `v.get(k, dflt)` where `v` may fail to be a dict. -/
def pyGetD (v : JVal) (k : String) (dflt : JVal) : Except String JVal := do
  let d ← asObj v
  .ok (dget d k dflt)

/-- Model of `v.values()` (`AttributeError` on a non-dict). -/
def asValues (v : JVal) : Except String (List JVal) := do
  let d ← asObj v
  .ok (d.map (fun kv => kv.2))

/-- Model of `for x in v`: lists iterate elements, dicts iterate keys,
strings iterate one-character strings; other values raise `TypeError`. -/
def asIter (v : JVal) : Except String (List JVal) :=
  match arrElems v with
  | some l => .ok l
  | none =>
    match objEntries v with
    | some d => .ok (d.map (fun kv => .str kv.1))
    | none =>
      match v with
      | .str s => .ok (s.data.map (fun c => .str (String.mk [c])))
      | _ => .error "TypeError: object is not iterable"

/-- Effectful `List.mapM` specialised to `Except`, kept as plain
structural recursion so that concrete inputs evaluate in the kernel. -/
def exceptMapM (f : α → Except String β) : List α → Except String (List β)
  | [] => .ok []
  | a :: as => do
    let b ← f a
    let bs ← exceptMapM f as
    .ok (b :: bs)

/-- Effectful `List.foldl` specialised to `Except`. -/
def exceptFoldl (f : β → α → Except String β) : β → List α → Except String β
  | b, [] => .ok b
  | b, a :: as => do
    let b2 ← f b a
    exceptFoldl f b2 as

/-! String helpers modelling the Python string operations the parser
uses (`startswith`, `replace(tag, "")`, `split("_")[-1]`). -/

/-- Model of `s.startswith(tag)`. -/
def startsWithTag (s tag : String) : Bool :=
  tag.data.isPrefixOf s.data

/-- Remove every non-overlapping occurrence of `pat`, scanning left to
right (fuel-based structural recursion; the fuel is the list length, at
least one character is consumed per step). -/
def eraseOccsAux (pat : List Char) : Nat → List Char → List Char
  | 0, s => s
  | _ + 1, [] => []
  | fuel + 1, c :: cs =>
    if pat.isPrefixOf (c :: cs) then
      eraseOccsAux pat fuel (List.drop (pat.length - 1) cs)
    else
      c :: eraseOccsAux pat fuel cs

/-- Model of `s.replace(tag, "")`. -/
def removeTag (s tag : String) : String :=
  String.mk (eraseOccsAux tag.data s.data.length s.data)

/-- Model of `s.split("_")[-1]`: the suffix after the last underscore
(the whole string when there is none). -/
def lastSeg (s : String) : String :=
  String.mk ((s.data.reverse.takeWhile (fun c => c != '_')).reverse)

/-! Table Layout Formatter: header formatting (`format_column_header`)
and group separation (`add_blank_lines_between_run_cycles`). -/

/-- Character-level model of
`re.sub(r'([a-z])([A-Z])|([A-Z])([A-Z][a-z])', r'\1\3\n\2\4', s)`:
a left-to-right, non-overlapping scan; the first alternative consumes
two characters, the second three. -/
def fmtChars : List Char → List Char
  | [] => []
  | [a] => [a]
  | [a, b] => if a.isLower && b.isUpper then [a, '\n', b] else [a, b]
  | a :: b :: c :: rest =>
    if a.isLower && b.isUpper then
      a :: '\n' :: b :: fmtChars (c :: rest)
    else if a.isUpper && b.isUpper && c.isLower then
      a :: '\n' :: b :: c :: fmtChars rest
    else
      a :: fmtChars (b :: c :: rest)

/-- Model of `format_column_header`. -/
def format_column_header (s : String) : String :=
  String.mk (fmtChars s.data)

/-- Model of `format_dict_headers`: rebuild the dict with formatted
keys, in comprehension order. -/
def format_dict_headers (d : Dict) : Dict :=
  d.foldl (fun acc kv => dset acc (format_column_header kv.1) kv.2) []

/-- The column key `add_blank_lines_between_run_cycles` inspects. -/
def cycleKey : String := format_column_header "RunCycleNumber"

/-- The blank separator row built from `row`: same keys, all values
empty. -/
def blankOf (row : Dict) : Dict :=
  row.map (fun kv => (kv.1, JVal.str ""))

/-- The cycle value of a row, `row.get(cycleKey, "")`. -/
def rowCyc (row : Dict) : JVal :=
  dget row cycleKey (.str "")

/-- The loop of `add_blank_lines_between_run_cycles`.  `prev` is the
Python variable `prev_run_cycle`; the initial Python `None` and a stored
JSON `null` are the very same object in Python, hence one `JVal.null`. -/
def addBlankAux : JVal → List Dict → List Dict
  | _, [] => []
  | prev, row :: rest =>
    let cur := rowCyc row
    (if prev ≠ JVal.null ∧ cur ≠ JVal.str "" ∧ cur ≠ prev ∧ prev ≠ JVal.str "" then
      [blankOf row] else [])
    ++ row :: addBlankAux (if cur ≠ JVal.str "" then cur else prev) rest

/-- Model of `add_blank_lines_between_run_cycles`. -/
def add_blank_lines_between_run_cycles (rows : List Dict) : List Dict :=
  if rows.isEmpty then rows else addBlankAux .null rows

/-! Experiment accessors. -/

/-- Python `round` (banker's rounding) to an integer, modelled exactly
on rationals and computed on the normalized representation: with
`x = num/den` and `f = ⌊x⌋`, the fractional part compares to `1/2` as
`2*(num - f*den)` compares to `den`. -/
def roundHalfEven (x : ℚ) : ℤ :=
  let f := x.num.fdiv x.den
  let r2 := 2 * (x.num - f * x.den)
  if r2 < (x.den : ℤ) then f
  else if (x.den : ℤ) < r2 then f + 1
  else if f % 2 = 0 then f else f + 1

/-- Python `round(x, 3)`. -/
def roundQ3 (x : ℚ) : ℚ :=
  qOfIntDiv1000 (roundHalfEven (qScale1000 x))

/-- Zero-padded three-digit fractional part. -/
def pad3 (m : ℕ) : String :=
  if m < 10 then "00" ++ toString m
  else if m < 100 then "0" ++ toString m
  else toString m

/-- Model of `f"{x:.3f}"` for the (already 3-decimal) rounded value. -/
def formatFixed3 (q : ℚ) : String :=
  let m : ℤ := roundHalfEven (qScale1000 q)
  (if m < 0 then "-" else "") ++ toString (m.natAbs / 1000) ++ "." ++ pad3 (m.natAbs % 1000)

/-- Model of `get_used_disk_space`: `experiment.get("usedDiskspace")`
has no default, so an absent or non-numeric field reaches `raw / 1000`
and raises `TypeError`. -/
def get_used_disk_space (experiment : Dict) : Except String String :=
  match dget experiment "usedDiskspace" .null with
  | .num b => .ok (formatFixed3 (roundQ3 (qDiv1000 b)) ++ " KB")
  | _ => .error "TypeError: unsupported operand type for divide"

/-! Procedure block accessors. -/

/-- Model of `get_block_type`. -/
def get_block_type (block : Dict) : Except String String :=
  match dget block "blockType" (.str "Unknown block type") with
  | .str s =>
    .ok (if startsWithTag s "ProtocolBlockType_" then removeTag s "ProtocolBlockType_" else s)
  | _ => .error "AttributeError: object has no attribute startswith"

/-- Model of `get_block_magnification`.  A present-but-null (or any
non-string) magnification reaches `magnification.startswith(...)` and
raises `AttributeError`; `"N/A"` short-circuits the `and`. -/
def get_block_magnification (block : Dict) : Except String String :=
  match dget block "magnification" (.str "N/A") with
  | .str s =>
    .ok (if s ≠ "N/A" ∧ startsWithTag s "Magnification_" then removeTag s "Magnification_" else s)
  | _ => .error "AttributeError: object has no attribute startswith"

/-- Modelled from the spec: the normalization §7 of the spec prescribes
for `get_block_magnification` — a magnification value that is present
but null (or otherwise not a string) is normalized to the same default
`"N/A"` as an absent one, never an error. -/
def get_block_magnification_spec (block : Dict) : String :=
  match dget block "magnification" (.str "N/A") with
  | .str s =>
    if s ≠ "N/A" ∧ startsWithTag s "Magnification_" then removeTag s "Magnification_" else s
  | _ => "N/A"

/-- Model of `get_run_cycle_number`. -/
def get_run_cycle_number (block : Dict) : JVal :=
  dget block "runCycleNumber" (.str "Unknown run cycle number")

/-! Step Sequencer, pass 1: `add_numbers_to_run_cycles`.  The pure
functions below describe the contents of the returned list; the heap
model further down captures the in-place mutation of the step records. -/

/-- The `block.get("blockType") == "ProtocolBlockType_RunCycle"` test. -/
def isRunCycleBlock (b : Dict) : Prop :=
  dget b "blockType" .null = .str "ProtocolBlockType_RunCycle"

instance (b : Dict) : Decidable (isRunCycleBlock b) := by
  unfold isRunCycleBlock; infer_instance

/-- The numbering loop; `n` is the running `run_cycle_number` counter. -/
def addNumbersAux : ℕ → List Dict → List Dict
  | _, [] => []
  | n, b :: bs =>
    if isRunCycleBlock b then
      dset b "runCycleNumber" (.num ((n + 1 : ℕ) : ℚ)) :: addNumbersAux (n + 1) bs
    else
      b :: addNumbersAux n bs

/-- Model of `add_numbers_to_run_cycles` (returned-list view). -/
def add_numbers_to_run_cycles (blocks : List Dict) : List Dict :=
  addNumbersAux 0 blocks

/-! Heap model of the two Step Sequencer passes, capturing Python
aliasing: a heap is a store of dict objects and a block list is a list
of references into it.  `add_numbers_to_run_cycles` writes through the
references it was given (mutating the caller's records) and returns a
list of the same references; `propagate_magnification` allocates copies
and leaves every pre-existing heap cell untouched. -/

abbrev Heap := List Dict

/-- Dereference (out-of-range references read as an empty dict). -/
def hGet (h : Heap) (r : ℕ) : Dict := h.getD r []

/-- Write through a reference. -/
def hSet (h : Heap) (r : ℕ) (d : Dict) : Heap := h.set r d

/-- Heap model of the `add_numbers_to_run_cycles` loop. -/
def addNumbersHeapAux : ℕ → Heap → List ℕ → Heap × List ℕ
  | _, h, [] => (h, [])
  | n, h, r :: rs =>
    if isRunCycleBlock (hGet h r) then
      let h2 := hSet h r (dset (hGet h r) "runCycleNumber" (.num ((n + 1 : ℕ) : ℚ)))
      let res := addNumbersHeapAux (n + 1) h2 rs
      (res.1, r :: res.2)
    else
      let res := addNumbersHeapAux n h rs
      (res.1, r :: res.2)

/-- Heap model of `add_numbers_to_run_cycles`. -/
def add_numbers_to_run_cycles_heap (h : Heap) (blocks : List ℕ) : Heap × List ℕ :=
  addNumbersHeapAux 0 h blocks

/-- Heap model of the `propagate_magnification` loop: each iteration
shallow-copies the current block, sets `magnification` on the copy, and
appends the copy as a fresh heap cell. -/
def propagateHeapAux : JVal → Heap → List ℕ → Heap × List ℕ
  | _, h, [] => (h, [])
  | lastMag, h, r :: rs =>
    let block := hGet h r
    let lm := if truthy (dget block "magnification" .null) then
                dget block "magnification" .null else lastMag
    let newBlock := dset block "magnification" lm
    let res := propagateHeapAux lm (h ++ [newBlock]) rs
    (res.1, h.length :: res.2)

/-- Heap model of `propagate_magnification` (`last_mag` starts as
Python `None`). -/
def propagate_magnification_heap (h : Heap) (blocks : List ℕ) : Heap × List ℕ :=
  propagateHeapAux .null h blocks

/-! Step Row Dispatcher: `get_erase_channel_info`,
`get_run_cycle_channel_info`, `build_bucket_lookup`, `process_block`. -/

/-- The loop body of `get_erase_channel_info` over `photos.values()`.
`dc.get("fluorochromeType")` cannot distinguish an absent key from a
stored null; both pass the `!= "FluorochromeType_None"` test and then
`dc["fluorochromeType"].split` raises (`KeyError` / `AttributeError`). -/
def eraseLoop : List JVal → Except String (List Dict)
  | [] => .ok []
  | v :: vs => do
    let dc ← asObj v
    if truthy (dget dc "isEnabled" .null) then
      if dget dc "fluorochromeType" .null ≠ JVal.str "FluorochromeType_None" then
        match dgetOpt dc "fluorochromeType" with
        | some (.str s) => do
          let rest ← eraseLoop vs
          .ok (([("Channel", JVal.str (lastSeg s)),
                 ("ChannelInfo", JVal.objOf [("BleachingEnergy", dget dc "bleachingEnergy" (.str ""))])] : Dict)
               :: rest)
        | some _ => .error "AttributeError: object has no attribute split"
        | none => .error "KeyError: fluorochromeType"
      else eraseLoop vs
    else eraseLoop vs

/-- Model of `get_erase_channel_info`. -/
def get_erase_channel_info (block : Dict) : Except String (List Dict) := do
  let vals ← asValues (dget block "photos" .nilO)
  eraseLoop vals

/-- The fixed detection-slot order of `get_run_cycle_channel_info`. -/
def channel_order : List (String × String) :=
  [("DetectionChannel_1", "DAPI"), ("DetectionChannel_2", "FITC"),
   ("DetectionChannel_3", "PE"), ("DetectionChannel_4", "APC"),
   ("DetectionChannel_5", "Vio780")]

/-- The `FIELDNAMES` constant of `get_run_cycle_channel_info`. -/
def FIELDNAMES : List String :=
  ["Antigen", "Clone", "DilutionFactor", "IncubationTime", "ReagentExposureTime",
   "ExposureCoefficient", "ActualExposureTime", "ErasingMethod", "BleachingEnergy", "ValidatedFor",
   "Antibody", "AntibodyType", "HostSpecies", "Isotype", "Manufacturer", "Name", "OrderNumber", "Species"]

/-- The `ActualExposureTime` conditional expression: computed only when
`reagent.get("exposureTime")` and `dc.get("exposureTimeAndCoefficient")`
are both truthy, otherwise the empty string (note: the dict is tested
for truthiness, not the coefficient inside it). -/
def actualExposureVal (reagent dc : Dict) : Except String JVal :=
  if truthy (dget reagent "exposureTime" .null) ∧
     truthy (dget dc "exposureTimeAndCoefficient" .null) then do
    let tc ← asObj (dget dc "exposureTimeAndCoefficient" .nilO)
    match dget reagent "exposureTime" (.num 0), dget tc "timeCoefficient" (.num 0) with
    | .num a, .num b => .ok (.num (pyMulDiv100 a b))
    | _, _ => .error "TypeError: unsupported operand"
  else .ok (.str "")

/-- The `ErasingMethod` expression of `get_run_cycle_channel_info`:
`dc.get("erasingMethod", "").split("_")[-1] if dc.get("erasingMethod")
else ""`; a truthy non-string value raises `AttributeError`. -/
def erasingVal (dc : Dict) : Except String JVal :=
  if truthy (dget dc "erasingMethod" .null) then
    match dget dc "erasingMethod" (.str "") with
    | .str s => .ok (JVal.str (lastSeg s))
    | _ => .error "AttributeError: object has no attribute split"
  else .ok (.str "")

/-- The `chan_info` computation of `get_run_cycle_channel_info` for one
detection slot `dc`: all `FIELDNAMES` default to `""`; when `bucketId`
is truthy, `chan_info.update({...})` fills the fields from the resolved
reagent and from `dc`, in the evaluation order of the literal. -/
def runCycleChanInfo (dc : Dict) (bucket_lookup : JDict) : Except String Dict := do
  let bucket_id := dget dc "bucketId" (.str "")
  let defaults : Dict := FIELDNAMES.map (fun f => (f, JVal.str ""))
  if truthy bucket_id then do
    let reagentV ← pyDictGet bucket_lookup bucket_id .nilO
    let reagent ← asObj reagentV
    let expoCoef ← do
      let tc ← asObj (dget dc "exposureTimeAndCoefficient" .nilO)
      pure (dget tc "timeCoefficient" (.str ""))
    let actual ← actualExposureVal reagent dc
    let erasing ← erasingVal dc
    let updates : Dict :=
      [("Antigen", dget reagent "antigen" (.str "")),
       ("Clone", dget reagent "clone" (.str "")),
       ("DilutionFactor", dget dc "dilutionFactor" (.str "")),
       ("IncubationTime", dget dc "incubationTime" (.str "")),
       ("ReagentExposureTime", dget reagent "exposureTime" (.str "")),
       ("ExposureCoefficient", expoCoef),
       ("ActualExposureTime", actual),
       ("ErasingMethod", erasing),
       ("BleachingEnergy", dget dc "bleachingEnergy" (.str "")),
       ("ValidatedFor", dget reagent "supportedFixationMethods" (.str "")),
       ("Antibody", dget reagent "Antibody" (.str "")),
       ("AntibodyType", dget reagent "AntibodyType" (.str "")),
       ("HostSpecies", dget reagent "HostSpecies" (.str "")),
       ("Isotype", dget reagent "Isotype" (.str "")),
       ("Manufacturer", dget reagent "Manufacturer" (.str "")),
       ("Name", dget reagent "Name" (.str "")),
       ("OrderNumber", dget reagent "OrderNumber" (.str "")),
       ("Species", dget reagent "Species" (.str ""))]
    .ok (dupdate defaults updates)
  else
    .ok defaults

/-- One iteration of the `channel_order` loop: build
`{"Channel": name, "ChannelInfo": chan_info}` for slot `key`. -/
def runCycleChan (kvs : Dict) (bucket_lookup : JDict) (kn : String × String) :
    Except String Dict := do
  let dc ← asObj (dget kvs kn.1 .nilO)
  let ci ← runCycleChanInfo dc bucket_lookup
  .ok ([("Channel", JVal.str kn.2), ("ChannelInfo", JVal.objOf ci)] : Dict)

/-- Model of `get_run_cycle_channel_info`.  An empty (or absent)
`reagents` mapping returns the empty list immediately — this is the
early `if not dct_reagents: return out` in the source. -/
def get_run_cycle_channel_info (block : Dict) (bucket_lookup : JDict) :
    Except String (List Dict) :=
  let dct_reagents := dget block "reagents" .nilO
  if ¬ truthy dct_reagents then .ok []
  else do
    let kvs ← asObj dct_reagents
    exceptMapM (runCycleChan kvs bucket_lookup) channel_order

/-! Reagent Index Builder: `build_bucket_lookup`. -/

/-- One `procedures[*].reagents[*]` link of `build_bucket_lookup`:
record `bucketId → reagentId.itemId` when both are truthy. -/
def linkStep (acc : JDict) (link : JVal) : Except String JDict := do
  let bid ← pyGetD link "bucketId" .null
  let ridObj ← pyGetD link "reagentId" .nilO
  let rid ← pyGetD ridObj "itemId" .null
  if truthy bid ∧ truthy rid then
    if hashable bid then .ok (jset acc bid rid)
    else .error "TypeError: unhashable type"
  else .ok acc

/-- Stage (a) of `build_bucket_lookup`: slot → reagent identifier. -/
def buildB2R (data : Dict) : Except String JDict := do
  let procs ← asIter (dget data "procedures" .nilA)
  exceptFoldl (fun acc proc => do
      let linksV ← pyGetD proc "reagents" .nilA
      let links ← asIter linksV
      exceptFoldl linkStep acc links) [] procs

/-- The per-reagent catalogue record of `build_bucket_lookup`, with its
documented defaults. -/
def catEntry (rd : Dict) : JVal :=
  JVal.objOf
    [("antigen", dget rd "antigen" (.str "Unknown")),
     ("clone", dget rd "clone" (.str "N/A")),
     ("exposureTime", dget rd "exposureTime" (.num 0)),
     ("supportedFixationMethods", dget rd "supportedFixationMethods" (.str "")),
     ("Antibody", dget rd "antibody" (.str "")),
     ("AntibodyType", dget rd "antibodyType" (.str "")),
     ("HostSpecies", dget rd "hostSpecies" (.str "")),
     ("Isotype", dget rd "isotype" (.str "")),
     ("Manufacturer", dget rd "manufacturer" (.str "")),
     ("Name", dget rd "name" (.str "")),
     ("OrderNumber", dget rd "orderNumber" (.str "")),
     ("Species", dget rd "species" (.str ""))]

/-- Stage (b) of `build_bucket_lookup`: reagent identifier → metadata
(`r["id"]` is a plain indexing, so a catalogue entry without an `id`
raises `KeyError`). -/
def buildCatalogue (data : Dict) : Except String JDict := do
  let rs ← asIter (dget data "reagents" .nilA)
  exceptFoldl (fun acc r => do
      let rd ← asObj r
      match dgetOpt rd "id" with
      | some idv =>
        if hashable idv then .ok (jset acc idv (catEntry rd))
        else .error "TypeError: unhashable type"
      | none => .error "KeyError: id") [] rs

/-- Model of `build_bucket_lookup`: compose stages (a) and (b); a
reagent identifier absent from the catalogue maps its slot to `{}`. -/
def build_bucket_lookup (data : Dict) : Except String JDict := do
  let b2r ← buildB2R data
  let cat ← buildCatalogue data
  .ok (b2r.map (fun kv => (kv.1, jget cat kv.2 .nilO)))

/-! `process_block`. -/

/-- The fixed 22-column order of `create_ordered_row`. -/
def column_order : List String :=
  ["RunCycleNumber", "BlockType", "Antigen", "Channel", "Magnification",
   "Clone", "DilutionFactor", "IncubationTime", "ReagentExposure",
   "Coefficient", "ActualExposure", "ErasingMethod", "BleachingEnergy",
   "ValidatedFor", "Antibody", "AntibodyType", "HostSpecies", "Isotype",
   "Manufacturer", "OrderNumber", "Species", "Name"]

/-- Model of `create_ordered_row(**values)`. -/
def create_ordered_row (vals : Dict) : Dict :=
  column_order.map (fun c => (c, dget vals c (.str "")))

/-- The entries of a channel's `ChannelInfo` (present by construction;
the defaults are unreachable). -/
def chanInfoOf (chan : Dict) : Dict :=
  match objEntries (dget chan "ChannelInfo" .nilO) with
  | some ci => ci
  | none => []

/-- The Erase row built by `process_block` for one channel. -/
def eraseRowOf (bt mag : String) (rcn : JVal) (chan : Dict) : Dict :=
  format_dict_headers (create_ordered_row
    [("RunCycleNumber", rcn), ("BlockType", .str bt),
     ("Magnification", .str mag), ("Channel", dget chan "Channel" .null),
     ("BleachingEnergy", dget (chanInfoOf chan) "BleachingEnergy" .null)])

/-- The RunCycle row built by `process_block` for one channel. -/
def runRowOf (bt mag : String) (rcn : JVal) (chan : Dict) : Dict :=
  let cc := chanInfoOf chan
  format_dict_headers (create_ordered_row
    [("RunCycleNumber", rcn), ("BlockType", .str bt),
     ("Antigen", dget cc "Antigen" (.str "")),
     ("Channel", dget chan "Channel" .null),
     ("Magnification", .str mag),
     ("Clone", dget cc "Clone" (.str "")),
     ("DilutionFactor", dget cc "DilutionFactor" (.str "")),
     ("IncubationTime", dget cc "IncubationTime" (.str "")),
     ("ReagentExposure", dget cc "ReagentExposureTime" (.str "")),
     ("Coefficient", dget cc "ExposureCoefficient" (.str "")),
     ("ActualExposure", dget cc "ActualExposureTime" (.str "")),
     ("ErasingMethod", dget cc "ErasingMethod" (.str "")),
     ("BleachingEnergy", dget cc "BleachingEnergy" (.str "")),
     ("ValidatedFor", dget cc "ValidatedFor" (.str "")),
     ("Antibody", dget cc "Antibody" (.str "")),
     ("AntibodyType", dget cc "AntibodyType" (.str "")),
     ("HostSpecies", dget cc "HostSpecies" (.str "")),
     ("Isotype", dget cc "Isotype" (.str "")),
     ("Manufacturer", dget cc "Manufacturer" (.str "")),
     ("OrderNumber", dget cc "OrderNumber" (.str "")),
     ("Species", dget cc "Species" (.str "")),
     ("Name", dget cc "Name" (.str ""))])

/-- Model of `process_block`. -/
def process_block (block : Dict) (bucket_lookup : JDict) :
    Except String (List Dict) := do
  let bt ← get_block_type block
  let mag ← get_block_magnification block
  let rcn := if bt = "RunCycle" then get_run_cycle_number block else .str ""
  if bt = "Erase" then do
    let chans ← get_erase_channel_info block
    .ok (chans.map (eraseRowOf bt mag rcn))
  else if bt ≠ "RunCycle" then
    .ok [format_dict_headers (create_ordered_row
      [("RunCycleNumber", rcn), ("BlockType", .str bt), ("Magnification", .str mag)])]
  else do
    let chans ← get_run_cycle_channel_info block bucket_lookup
    .ok (chans.map (runRowOf bt mag rcn))

/-! Spec-side definitions used to state the claims (these render the
spec's wording; the definitions above render the source). -/

/-- The last non-empty CycleNumber value seen in `rows`, starting from
tracking state `p` (a stored null re-enters the "no previous" state,
exactly as in the code, where both are the Python `None`). -/
def lastCycleFrom (p : JVal) (rows : List Dict) : JVal :=
  rows.foldl (fun q r => if rowCyc r ≠ JVal.str "" then rowCyc r else q) p

/-- Spec-side segment for one row: a separator precedes the row exactly
when the row's CycleNumber is non-empty and the tracked last-seen value
exists and differs. -/
def sepSegment (p : JVal) (row : Dict) : List Dict :=
  if rowCyc row ≠ JVal.str "" ∧ p ≠ JVal.null ∧ rowCyc row ≠ p then
    [blankOf row, row]
  else [row]

/-- Index-based rendering of the amended group-separation property:
before `rows[i]` the tracked value is the fold over `rows.take i`. -/
def sepSpecFrom (p : JVal) (rows : List Dict) : List Dict :=
  ((List.range rows.length).map
    (fun i => sepSegment (lastCycleFrom p (rows.take i)) (rows.getD i []))).flatten

/-- The amended C5 transform: tracking starts with no previous value. -/
def sepSpecAmended (rows : List Dict) : List Dict :=
  sepSpecFrom .null rows

/-- The C5 claim as literally stated: a separator before `rows[i]`
exactly when the immediately preceding row has a different, also
non-empty CycleNumber. -/
def sepSpecImmediate (rows : List Dict) : List Dict :=
  ((List.range rows.length).map (fun i =>
    if 0 < i ∧ rowCyc (rows.getD i []) ≠ JVal.str "" ∧
       rowCyc (rows.getD (i - 1) []) ≠ JVal.str "" ∧
       rowCyc (rows.getD i []) ≠ rowCyc (rows.getD (i - 1) []) then
      [blankOf (rows.getD i []), rows.getD i []]
    else [rows.getD i []])).flatten

/-- Number of separator rows `addBlankAux` inserts from state `prev`. -/
def numIns : JVal → List Dict → ℕ
  | _, [] => 0
  | prev, row :: rest =>
    let cur := rowCyc row
    (if prev ≠ JVal.null ∧ cur ≠ JVal.str "" ∧ cur ≠ prev ∧ prev ≠ JVal.str "" then 1 else 0)
      + numIns (if cur ≠ JVal.str "" then cur else prev) rest

/-- Spec-side selection for Erase dispatch (C8): channels with a truthy
enabled flag and a fluorochrome label other than the "none" sentinel,
rendered as (label, bleaching energy). -/
def eraseSel (kv : String × JVal) : Option (String × JVal) :=
  match objEntries kv.2 with
  | some d =>
    if truthy (dget d "isEnabled" .null) ∧
       dget d "fluorochromeType" .null ≠ JVal.str "FluorochromeType_None" then
      match dgetOpt d "fluorochromeType" with
      | some (.str s) => some (lastSeg s, dget d "bleachingEnergy" (.str ""))
      | _ => none
    else none
  | none => none

/-- Spec-side Erase output row (C8): all 22 formatted columns, with
only StepKind, Magnification, Channel and BleachingEnergy populated;
CycleNumber and every reagent-specific column empty. -/
def eraseRowSpec (mag : String) (p : String × JVal) : Dict :=
  [("Run\nCycle\nNumber", JVal.str ""), ("Block\nType", JVal.str "Erase"),
   ("Antigen", JVal.str ""), ("Channel", JVal.str p.1),
   ("Magnification", JVal.str mag), ("Clone", JVal.str ""),
   ("Dilution\nFactor", JVal.str ""), ("Incubation\nTime", JVal.str ""),
   ("Reagent\nExposure", JVal.str ""), ("Coefficient", JVal.str ""),
   ("Actual\nExposure", JVal.str ""), ("Erasing\nMethod", JVal.str ""),
   ("Bleaching\nEnergy", p.2), ("Validated\nFor", JVal.str ""),
   ("Antibody", JVal.str ""), ("Antibody\nType", JVal.str ""),
   ("Host\nSpecies", JVal.str ""), ("Isotype", JVal.str ""),
   ("Manufacturer", JVal.str ""), ("Order\nNumber", JVal.str ""),
   ("Species", JVal.str ""), ("Name", JVal.str "")]

/-! Concrete inputs used by counterexamples and witnesses. -/

/-- A RunCycle step whose reagents mapping is empty (C1). -/
def exC1empty : Dict :=
  [("blockType", .str "ProtocolBlockType_RunCycle"), ("reagents", JVal.objOf [])]

/-- A RunCycle step with a single populated slot (C1 witness). -/
def exC1 : Dict :=
  [("blockType", .str "ProtocolBlockType_RunCycle"),
   ("reagents", JVal.objOf [("DetectionChannel_2", JVal.objOf [("bucketId", .str "")])])]

/-- The rows `process_block exC1 []` produces. -/
def exC1rows : List Dict := (process_block exC1 []).toOption.getD []

/-- A RunCycle step whose first slot has coefficient 0 (C3). -/
def exC3 : Dict :=
  [("blockType", .str "ProtocolBlockType_RunCycle"),
   ("reagents", JVal.objOf
     [("DetectionChannel_1", JVal.objOf
        [("bucketId", .str "b1"),
         ("exposureTimeAndCoefficient", JVal.objOf [("timeCoefficient", .num 0)])])])]

/-- A lookup resolving slot `b1` to base exposure time 56 (C3). -/
def exC3lk : JDict := [(.str "b1", JVal.objOf [("exposureTime", .num 56)])]

/-- A RunCycle slot and lookup with exposure 56 and coefficient 330
(C3 witness, the spec's own example: 56 × 330 / 100 = 184.8). -/
def exC3dc : Dict :=
  [("bucketId", .str "b1"),
   ("exposureTimeAndCoefficient", JVal.objOf [("timeCoefficient", .num 330)])]

/-- Blocks for the C4 witness: Scan, RunCycle, RunCycle. -/
def exC4blocks : List Dict :=
  [[("blockType", .str "ProtocolBlockType_Scan")],
   [("blockType", .str "ProtocolBlockType_RunCycle")],
   [("blockType", .str "ProtocolBlockType_RunCycle")]]

/-- Rows with cycle values "1", "", "2" (C5): the code inserts a
separator before the third row although the immediately preceding row
has an empty CycleNumber. -/
def exC5rows : List Dict :=
  [[(cycleKey, JVal.str "1")], [(cycleKey, JVal.str "")], [(cycleKey, JVal.str "2")]]

/-- Rows with two distinct non-empty cycle values (C6). -/
def exC6rows : List Dict :=
  [[(cycleKey, JVal.str "1")], [(cycleKey, JVal.str "2")]]

/-- A heap holding one RunCycle step record (C7). -/
def exC7heap : Heap :=
  [[("blockType", .str "ProtocolBlockType_RunCycle")]]

/-- The photo channels of the spec's C8 example: FITC/PE/APC enabled
with energies 1980/840/780, Vio780 disabled. -/
def exC8chans : List (String × JVal) :=
  [("FITC", JVal.objOf [("fluorochromeType", .str "FluorochromeType_FITC"),
                        ("bleachingEnergy", .num 1980), ("isEnabled", .num 1)]),
   ("PE", JVal.objOf [("fluorochromeType", .str "FluorochromeType_PE"),
                      ("bleachingEnergy", .num 840), ("isEnabled", .num 1)]),
   ("APC", JVal.objOf [("fluorochromeType", .str "FluorochromeType_APC"),
                       ("bleachingEnergy", .num 780), ("isEnabled", .num 1)]),
   ("Vio780", JVal.objOf [("fluorochromeType", .str "FluorochromeType_Vio780"),
                          ("bleachingEnergy", .num 0), ("isEnabled", .num 0)])]

/-- The Erase step of the spec's C8 example. -/
def exC8 : Dict :=
  [("blockType", .str "ProtocolBlockType_Erase"),
   ("photos", JVal.objOf exC8chans)]

/-- A document with one procedure linking two slots, only one of which
resolves in the catalogue (C9 witness). -/
def exC9data : Dict :=
  [("procedures", JVal.arrOf
     [JVal.objOf [("reagents", JVal.arrOf
        [JVal.objOf [("bucketId", .str "bucket1"),
                     ("reagentId", JVal.objOf [("itemId", .str "reagent1")])],
         JVal.objOf [("bucketId", .str "bucket2"),
                     ("reagentId", JVal.objOf [("itemId", .str "missing")])]])]]),
   ("reagents", JVal.arrOf
     [JVal.objOf [("id", .str "reagent1"), ("antigen", .str "CD3"),
                  ("clone", .str "Clone1"), ("exposureTime", .num 100)]])]

/-- The index built from `exC9data`. -/
def exC9lk : JDict := (build_bucket_lookup exC9data).toOption.getD []

/-- The `chan_info` record computed for `exC3dc` (C3 witness). -/
def exC3ci : Dict := (runCycleChanInfo exC3dc exC3lk).toOption.getD []

/-- A heap holding one non-RunCycle step record (C7 witness). -/
def exC7scan : Heap :=
  [[("blockType", .str "ProtocolBlockType_Scan")]]

/-- Stage (a) result for `exC9data`. -/
def exC9b2r : JDict := (buildB2R exC9data).toOption.getD []

/-- Stage (b) result for `exC9data`. -/
def exC9cat : JDict := (buildCatalogue exC9data).toOption.getD []

/-- The count of RunCycle-kind steps in a block list. -/
def runCycleCount (blocks : List Dict) : ℕ :=
  (blocks.filter (fun b => decide (isRunCycleBlock b))).length

/-- The `runCycleNumber` values carried by the RunCycle-kind steps of a
block list, in order. -/
def runNumsOf (blocks : List Dict) : List JVal :=
  blocks.filterMap
    (fun b => if isRunCycleBlock b then some (dget b "runCycleNumber" .null) else none)

theorem pyMulDiv100_eq (a b : ℚ) : pyMulDiv100 a b = a * b / 100 := by
  have ha : (a.den : ℚ) ≠ 0 := Nat.cast_ne_zero.mpr a.den_nz
  have hb : (b.den : ℚ) ≠ 0 := Nat.cast_ne_zero.mpr b.den_nz
  have h1 : (a.num : ℚ) = a * (a.den : ℚ) := (div_eq_iff ha).mp (Rat.num_div_den a)
  have h2 : (b.num : ℚ) = b * (b.den : ℚ) := (div_eq_iff hb).mp (Rat.num_div_den b)
  unfold pyMulDiv100
  rw [Rat.mkRat_eq_div]
  push_cast
  rw [div_eq_div_iff (mul_ne_zero (mul_ne_zero ha hb) (by norm_num)) (by norm_num)]
  rw [h1, h2]; ring

theorem qScale1000_eq (x : ℚ) : qScale1000 x = x * 1000 := by
  have hx : (x.den : ℚ) ≠ 0 := Nat.cast_ne_zero.mpr x.den_nz
  have h1 : (x.num : ℚ) = x * (x.den : ℚ) := (div_eq_iff hx).mp (Rat.num_div_den x)
  unfold qScale1000
  rw [Rat.mkRat_eq_div]
  push_cast
  rw [div_eq_iff hx, h1]; ring

theorem qDiv1000_eq (x : ℚ) : qDiv1000 x = x / 1000 := by
  have hx : (x.den : ℚ) ≠ 0 := Nat.cast_ne_zero.mpr x.den_nz
  have h1 : (x.num : ℚ) = x * (x.den : ℚ) := (div_eq_iff hx).mp (Rat.num_div_den x)
  unfold qDiv1000
  rw [Rat.mkRat_eq_div]
  push_cast
  rw [div_eq_div_iff (mul_ne_zero hx (by norm_num)) (by norm_num), h1]; ring

theorem qOfIntDiv1000_eq (z : ℤ) : qOfIntDiv1000 z = (z : ℚ) / 1000 := by
  unfold qOfIntDiv1000
  rw [Rat.mkRat_eq_div]
  norm_num

theorem roundHalfEven_intCast (z : ℤ) : roundHalfEven ((z : ℤ) : ℚ) = z := by
  unfold roundHalfEven
  rw [Rat.num_intCast, Rat.den_intCast]
  simp [Int.fdiv_one]

theorem roundHalfEven_qScale_qOfIntDiv (z : ℤ) :
    roundHalfEven (qScale1000 (qOfIntDiv1000 z)) = z := by
  have : qScale1000 (qOfIntDiv1000 z) = ((z : ℤ) : ℚ) := by
    rw [qScale1000_eq, qOfIntDiv1000_eq]
    field_simp
  rw [this, roundHalfEven_intCast]

/-- C10: for every experiment record whose `usedDiskspace` field is a
number, `get_used_disk_space` divides it by 1000 (a decimal divisor,
not 1024), rounds to three decimal places and appends " KB"; for a
natural byte count the output digits are exactly the quotient and the
zero-padded remainder mod 1000. -/
theorem c10_used_disk_space (n : ℕ) :
    get_used_disk_space [("usedDiskspace", .num (n : ℚ))] =
      .ok (toString (n / 1000) ++ "." ++ pad3 (n % 1000) ++ " KB") := by
  have hq : qDiv1000 ((n : ℕ) : ℚ) = qOfIntDiv1000 (n : ℤ) := by
    rw [qDiv1000_eq, qOfIntDiv1000_eq]
    push_cast
    ring
  have hround : roundQ3 (qDiv1000 ((n : ℕ) : ℚ)) = qOfIntDiv1000 (n : ℤ) := by
    unfold roundQ3
    rw [hq, roundHalfEven_qScale_qOfIntDiv]
  have hm : roundHalfEven (qScale1000 (qOfIntDiv1000 (n : ℤ))) = (n : ℤ) :=
    roundHalfEven_qScale_qOfIntDiv n
  show Except.ok (formatFixed3 (roundQ3 (qDiv1000 ((n : ℕ) : ℚ))) ++ " KB") = _
  rw [hround]
  unfold formatFixed3
  rw [hm]
  have hneg : ¬ ((n : ℤ) < 0) := by omega
  simp only [hneg, if_false, Int.natAbs_ofNat]
  exact congrArg Except.ok (congrArg (fun s => s ++ " KB") (by
    show "" ++ _ = _
    rfl))

/-! Dict lemmas. -/

theorem find?_overwrite_ne (tl : Dict) (k k2 : String) (v : JVal) (h : k2 ≠ k) :
    (tl.map (fun kv => if kv.1 == k then (k, v) else kv)).find? (fun kv => kv.1 == k2)
      = ((tl.find? (fun kv => kv.1 == k2)).map
          (fun kv => if kv.1 == k then (k, v) else kv)) := by
  induction tl with
  | nil => simp
  | cons kv tl ih =>
    rw [List.map_cons]
    by_cases hk2 : kv.1 = k2
    · have hkk : ¬ (kv.1 = k) := by rw [hk2]; exact h
      rw [if_neg (by simpa using hkk)]
      rw [List.find?_cons_of_pos _ (by simpa using hk2),
          List.find?_cons_of_pos _ (by simpa using hk2)]
      simp [hkk]
    · by_cases hk : kv.1 = k
      · rw [if_pos (by simpa using hk)]
        rw [List.find?_cons_of_neg _ (by simp [Ne.symm h]),
            List.find?_cons_of_neg _ (by simpa using hk2)]
        exact ih
      · rw [if_neg (by simpa using hk)]
        rw [List.find?_cons_of_neg _ (by simpa using hk2),
            List.find?_cons_of_neg _ (by simpa using hk2)]
        exact ih

theorem dgetOpt_dset_ne (d : Dict) (k k2 : String) (v : JVal) (h : k2 ≠ k) :
    dgetOpt (dset d k v) k2 = dgetOpt d k2 := by
  unfold dset dgetOpt
  split
  · rw [find?_overwrite_ne d k k2 v h]
    cases hf : d.find? (fun kv => kv.1 == k2) with
    | none => simp
    | some kv =>
      have hkv : kv.1 = k2 := by
        have := List.find?_some hf
        simpa using this
      simp [hkv, h]
  · rw [List.find?_append]
    have : List.find? (fun kv => kv.1 == k2) [(k, v)] = none := by
      simp [Ne.symm h]
    rw [this]
    cases d.find? (fun kv => kv.1 == k2) <;> simp

theorem dget_dset_ne (d : Dict) (k k2 : String) (v dflt : JVal) (h : k2 ≠ k) :
    dget (dset d k v) k2 dflt = dget d k2 dflt := by
  unfold dget
  rw [dgetOpt_dset_ne d k k2 v h]

theorem dget_dset_self (d : Dict) (k : String) (v dflt : JVal) :
    dget (dset d k v) k dflt = v := by
  unfold dget dgetOpt dset
  split
  · next hany =>
    induction d with
    | nil => simp at hany
    | cons kv tl ih =>
      by_cases hk : kv.1 = k
      · rw [List.map_cons, if_pos (by simpa using hk)]
        rw [List.find?_cons_of_pos _ (by simp)]
        simp
      · rw [List.map_cons, if_neg (by simpa using hk)]
        rw [List.find?_cons_of_neg _ (by simpa using hk)]
        have hany2 : (tl.any fun kv => kv.1 == k) = true := by
          simp only [List.any_cons, Bool.or_eq_true] at hany
          rcases hany with h1 | h2
          · exact absurd (by simpa using h1) hk
          · exact h2
        exact ih hany2
  · rw [List.find?_append]
    have h1 : List.find? (fun kv => kv.1 == k) d = none := by
      next hany =>
      rw [List.find?_eq_none]
      intro kv hkv
      intro hb
      exact hany (List.any_eq_true.mpr ⟨kv, hkv, hb⟩)
    rw [h1]
    simp

/-! Step Sequencer lemmas (C4). -/

theorem addNumbersAux_length (n : ℕ) (bs : List Dict) :
    (addNumbersAux n bs).length = bs.length := by
  induction bs generalizing n with
  | nil => rfl
  | cons b bs ih =>
    unfold addNumbersAux
    split <;> simp [ih]

theorem isRunCycleBlock_dset_num (b : Dict) (v : JVal) :
    isRunCycleBlock (dset b "runCycleNumber" v) ↔ isRunCycleBlock b := by
  unfold isRunCycleBlock
  rw [dget_dset_ne _ _ _ _ _ (by decide)]

theorem runNumsOf_addNumbersAux (n : ℕ) (bs : List Dict) :
    runNumsOf (addNumbersAux n bs) =
      (List.range' (n + 1) (runCycleCount bs)).map (fun i => JVal.num ((i : ℕ) : ℚ)) := by
  induction bs generalizing n with
  | nil => rfl
  | cons b bs ih =>
    by_cases hb : isRunCycleBlock b
    · have hcount : runCycleCount (b :: bs) = runCycleCount bs + 1 := by
        unfold runCycleCount
        simp [List.filter_cons, hb]
      rw [hcount]
      unfold addNumbersAux
      rw [if_pos hb]
      unfold runNumsOf
      rw [List.filterMap_cons]
      have hrc : isRunCycleBlock (dset b "runCycleNumber" (.num ((n + 1 : ℕ) : ℚ))) :=
        (isRunCycleBlock_dset_num b _).mpr hb
      rw [if_pos hrc, dget_dset_self]
      rw [List.range'_succ, List.map_cons]
      exact congrArg (fun l => JVal.num ((n + 1 : ℕ) : ℚ) :: l) (ih (n + 1))
    · have hcount : runCycleCount (b :: bs) = runCycleCount bs := by
        unfold runCycleCount
        simp [List.filter_cons, hb]
      rw [hcount]
      unfold addNumbersAux
      rw [if_neg hb]
      unfold runNumsOf
      rw [List.filterMap_cons, if_neg hb]
      exact ih n

theorem addNumbersAux_getD_of_not_rc (n i : ℕ) (bs : List Dict)
    (h : ¬ isRunCycleBlock (bs.getD i [])) :
    (addNumbersAux n bs).getD i [] = bs.getD i [] := by
  induction bs generalizing n i with
  | nil => rfl
  | cons b bs ih =>
    unfold addNumbersAux
    cases i with
    | zero =>
      rw [List.getD_cons_zero] at h
      split
      · next hb => exact absurd hb h
      · rw [List.getD_cons_zero, List.getD_cons_zero]
    | succ j =>
      rw [List.getD_cons_succ] at h
      split <;> rw [List.getD_cons_succ, List.getD_cons_succ] <;> exact ih _ _ h

/-- C4: `add_numbers_to_run_cycles` preserves the list length, assigns
to the RunCycle-kind steps exactly the cycle numbers 1..k in list order
(where k is the count of RunCycle-kind steps), and returns every
non-RunCycle step record unchanged, so the pass never gives such a step
a cycle-number attribute. -/
theorem c4_cycle_numbering (blocks : List Dict) :
    (add_numbers_to_run_cycles blocks).length = blocks.length ∧
    runNumsOf (add_numbers_to_run_cycles blocks) =
      (List.range' 1 (runCycleCount blocks)).map (fun i => JVal.num ((i : ℕ) : ℚ)) ∧
    ∀ i : ℕ, ¬ isRunCycleBlock (blocks.getD i []) →
      (add_numbers_to_run_cycles blocks).getD i [] = blocks.getD i [] :=
  ⟨addNumbersAux_length 0 blocks, runNumsOf_addNumbersAux 0 blocks,
   fun i h => addNumbersAux_getD_of_not_rc 0 i blocks h⟩

/-! Group-separation lemmas (C5, C6). -/

theorem add_blank_eq (rows : List Dict) :
    add_blank_lines_between_run_cycles rows = addBlankAux .null rows := by
  cases rows <;> rfl

theorem rowCyc_blankOf (row : Dict) : rowCyc (blankOf row) = .str "" := by
  unfold rowCyc blankOf dget dgetOpt
  induction row with
  | nil => rfl
  | cons kv tl ih =>
    rw [List.map_cons]
    by_cases h : kv.1 = cycleKey
    · rw [List.find?_cons_of_pos _ (by simpa using h)]
      rfl
    · rw [List.find?_cons_of_neg _ (by simpa using h)]
      exact ih

theorem sepSpecFrom_nil (p : JVal) : sepSpecFrom p [] = [] := rfl

theorem sepSpecFrom_cons (p : JVal) (r : Dict) (rest : List Dict) :
    sepSpecFrom p (r :: rest) =
      sepSegment p r ++
        sepSpecFrom (if rowCyc r ≠ JVal.str "" then rowCyc r else p) rest := by
  unfold sepSpecFrom
  rw [List.length_cons, List.range_succ_eq_map, List.map_cons, List.flatten_cons,
    List.map_map]
  congr 1

theorem addBlankAux_eq_sepSpecFrom (rows : List Dict) (p : JVal) (hp : p ≠ JVal.str "") :
    addBlankAux p rows = sepSpecFrom p rows := by
  induction rows generalizing p with
  | nil => rfl
  | cons r rest ih =>
    rw [sepSpecFrom_cons]
    simp only [addBlankAux]
    have hp2 : (if rowCyc r ≠ JVal.str "" then rowCyc r else p) ≠ JVal.str "" := by
      split
      · next hne => exact hne
      · exact hp
    rw [ih _ hp2]
    unfold sepSegment
    by_cases hc : rowCyc r ≠ JVal.str "" ∧ p ≠ JVal.null ∧ rowCyc r ≠ p
    · rw [if_pos ⟨hc.2.1, hc.1, hc.2.2, hp⟩, if_pos hc]
      rfl
    · have hc2 : ¬ (p ≠ JVal.null ∧ rowCyc r ≠ JVal.str "" ∧ rowCyc r ≠ p ∧ p ≠ JVal.str "") := by
        intro ⟨a, b, c, _⟩
        exact hc ⟨b, a, c⟩
      rw [if_neg hc2, if_neg hc]
      rfl

theorem addBlankAux_length (p : JVal) (l : List Dict) :
    (addBlankAux p l).length = l.length + numIns p l := by
  induction l generalizing p with
  | nil => rfl
  | cons r rest ih =>
    simp only [addBlankAux, numIns]
    split
    · simp only [List.cons_append, List.nil_append, List.length_cons, ih]
      omega
    · simp only [List.nil_append, List.length_cons, ih]
      omega

theorem numIns_addBlankAux (p : JVal) (l : List Dict) :
    numIns p (addBlankAux p l) = numIns p l := by
  induction l generalizing p with
  | nil => rfl
  | cons r rest ih =>
    simp only [addBlankAux]
    have hss : (JVal.str "" ≠ JVal.str "") = False := eq_false (by decide)
    by_cases hc : p ≠ JVal.null ∧ rowCyc r ≠ JVal.str "" ∧ rowCyc r ≠ p ∧ p ≠ JVal.str ""
    · rw [if_pos hc]
      show numIns p (blankOf r :: r ::
        addBlankAux (if rowCyc r ≠ JVal.str "" then rowCyc r else p) rest) = _
      simp only [numIns, rowCyc_blankOf, hss, false_and, and_false, if_false]
      rw [ih]
      omega
    · rw [if_neg hc]
      show numIns p (r ::
        addBlankAux (if rowCyc r ≠ JVal.str "" then rowCyc r else p) rest) = _
      simp only [numIns]
      rw [ih]

theorem addBlankAux_eq_self_of_numIns_zero (p : JVal) (l : List Dict)
    (h : numIns p l = 0) : addBlankAux p l = l := by
  induction l generalizing p with
  | nil => rfl
  | cons r rest ih =>
    simp only [numIns] at h
    by_cases hc : p ≠ JVal.null ∧ rowCyc r ≠ JVal.str "" ∧ rowCyc r ≠ p ∧ p ≠ JVal.str ""
    · rw [if_pos hc] at h
      omega
    · rw [if_neg hc] at h
      simp only [Nat.zero_add] at h
      simp only [addBlankAux]
      rw [if_neg hc]
      rw [ih _ h]
      rfl

/-- C5 (amended): `add_blank_lines_between_run_cycles` inserts a blank
row immediately before a row exactly when that row has a non-empty
CycleNumber that differs from the tracked most recent non-empty
CycleNumber among the preceding rows (intervening empty-CycleNumber
rows do not reset the tracking); no separator before the very first row
or between rows sharing the tracked value. -/
theorem c5_separator_characterization (rows : List Dict) :
    add_blank_lines_between_run_cycles rows = sepSpecAmended rows := by
  rw [add_blank_eq]
  exact addBlankAux_eq_sepSpecFrom rows .null (by decide)

/-- C5 counterexample: on rows with cycle values "1", "", "2" the code
inserts a separator before the third row although the immediately
preceding row has an empty CycleNumber, so the transform differs from
the claim's immediate-predecessor characterization. -/
theorem c5_separator_counterexample :
    add_blank_lines_between_run_cycles exC5rows ≠ sepSpecImmediate exC5rows := by decide

/-- C6 (amended): the group-separation transform is not idempotent; a
second application inserts exactly as many additional blank rows as the
first one did, and it acts as the identity on its own output precisely
when the first application already inserted nothing. -/
theorem c6_second_pass_inserts_again (rows : List Dict) :
    (add_blank_lines_between_run_cycles (add_blank_lines_between_run_cycles rows)).length
        + rows.length
      = 2 * (add_blank_lines_between_run_cycles rows).length ∧
    (add_blank_lines_between_run_cycles (add_blank_lines_between_run_cycles rows)
        = add_blank_lines_between_run_cycles rows
      ↔ add_blank_lines_between_run_cycles rows = rows) := by
  have h1 := addBlankAux_length JVal.null rows
  have h2 := numIns_addBlankAux JVal.null rows
  have h3 := addBlankAux_length JVal.null (addBlankAux JVal.null rows)
  rw [add_blank_eq rows, add_blank_eq (addBlankAux JVal.null rows)]
  constructor
  · rw [h3, h2, h1]
    omega
  · constructor
    · intro h
      have hlen := congrArg List.length h
      rw [h3, h2] at hlen
      have hzero : numIns JVal.null rows = 0 := by omega
      exact addBlankAux_eq_self_of_numIns_zero _ _ hzero
    · intro h
      rw [h] at h2 ⊢
      exact addBlankAux_eq_self_of_numIns_zero _ _ (by
        have := addBlankAux_length JVal.null rows
        rw [h] at this
        omega)

/-- C6 counterexample: on two rows with cycle values "1" and "2",
applying `add_blank_lines_between_run_cycles` twice yields a different
list (an extra blank row) than applying it once. -/
theorem c6_idempotence_counterexample :
    add_blank_lines_between_run_cycles (add_blank_lines_between_run_cycles exC6rows) ≠
      add_blank_lines_between_run_cycles exC6rows := by decide

/-! Heap lemmas (C7). -/

theorem take_of_take_append (h : Heap) (x : Dict) (l : Heap)
    (hp : l.take (h.length + 1) = h ++ [x]) : l.take h.length = h := by
  have h2 : l.take h.length = (l.take (h.length + 1)).take h.length := by
    rw [List.take_take]
    congr 1
    omega
  rw [h2, hp]
  exact List.take_left h _

theorem propagateHeapAux_preserves (lm : JVal) (h : Heap) (blocks : List ℕ) :
    ((propagateHeapAux lm h blocks).1).take h.length = h := by
  induction blocks generalizing lm h with
  | nil => simp [propagateHeapAux]
  | cons r rs ih =>
    simp only [propagateHeapAux]
    exact take_of_take_append h _ _ (by
      have hih := ih
        (if truthy (dget (hGet h r) "magnification" JVal.null) = true then
          dget (hGet h r) "magnification" JVal.null else lm)
        (h ++ [dset (hGet h r) "magnification"
          (if truthy (dget (hGet h r) "magnification" JVal.null) = true then
            dget (hGet h r) "magnification" JVal.null else lm)])
      simpa using hih)

theorem hGet_hSet_ne (h : Heap) (r i : ℕ) (d : Dict) (hne : r ≠ i) :
    hGet (hSet h r d) i = hGet h i := by
  unfold hGet hSet
  rw [List.getD_eq_getElem?_getD, List.getD_eq_getElem?_getD]
  rw [List.getElem?_set_ne hne]

theorem addNumbersHeapAux_not_rc (n : ℕ) (h : Heap) (blocks : List ℕ) (i : ℕ)
    (hi : ¬ isRunCycleBlock (hGet h i)) :
    hGet ((addNumbersHeapAux n h blocks).1) i = hGet h i := by
  induction blocks generalizing n h with
  | nil => rfl
  | cons r rs ih =>
    simp only [addNumbersHeapAux]
    split
    · next hrc =>
      have hri : r ≠ i := by
        rintro rfl
        exact hi hrc
      have hpres : hGet (hSet h r (dset (hGet h r) "runCycleNumber"
          (.num ((n + 1 : ℕ) : ℚ)))) i = hGet h i := hGet_hSet_ne h r i _ hri
      rw [ih (n + 1) _ (by rw [hpres]; exact hi), hpres]
    · exact ih n h hi

theorem addNumbersHeapAux_refs (n : ℕ) (h : Heap) (blocks : List ℕ) :
    (addNumbersHeapAux n h blocks).2 = blocks := by
  induction blocks generalizing n h with
  | nil => rfl
  | cons r rs ih =>
    simp only [addNumbersHeapAux]
    split <;> simp [ih]

/-- C7 (amended): in the heap model, `propagate_magnification` leaves
every pre-existing step record unchanged (it only appends copies), but
`add_numbers_to_run_cycles` returns the very same record references it
was given and mutates only RunCycle-kind records in place — records of
any other kind are untouched. -/
theorem c7_sequencer_mutation :
    (∀ (h : Heap) (blocks : List ℕ),
        ((propagate_magnification_heap h blocks).1).take h.length = h) ∧
    (∀ (h : Heap) (blocks : List ℕ) (i : ℕ), ¬ isRunCycleBlock (hGet h i) →
        hGet ((add_numbers_to_run_cycles_heap h blocks).1) i = hGet h i) ∧
    (∀ (h : Heap) (blocks : List ℕ), (add_numbers_to_run_cycles_heap h blocks).2 = blocks) :=
  ⟨fun h blocks => propagateHeapAux_preserves .null h blocks,
   fun h blocks i hi => addNumbersHeapAux_not_rc 0 h blocks i hi,
   fun h blocks => addNumbersHeapAux_refs 0 h blocks⟩

/-- C7 counterexample: `add_numbers_to_run_cycles` mutates the caller's
step records — after the call, the RunCycle record in the input heap
has acquired a `runCycleNumber` key. -/
theorem c7_mutation_counterexample :
    hGet ((add_numbers_to_run_cycles_heap exC7heap [0]).1) 0 ≠ hGet exC7heap 0 := by decide

/-- C2: a magnification value that is present but null is fatal — the
code reaches `None.startswith` and raises `AttributeError` instead of
normalizing to "N/A" as the spec (and the module's own test
`test_get_block_magnification_with_none`) requires; likewise an absent
`usedDiskspace` raises `TypeError` in `get_used_disk_space` rather than
yielding a default. -/
theorem c2_null_magnification_raises :
    get_block_magnification [("magnification", JVal.null)] =
        .error "AttributeError: object has no attribute startswith" ∧
    get_block_magnification_spec [("magnification", JVal.null)] = "N/A" ∧
    get_used_disk_space [] = .error "TypeError: unsupported operand type for divide" :=
  ⟨by decide, by decide, by decide⟩

/-! Except bind helpers. -/

theorem ebind_ok {α β : Type} (a : α) (f : α → Except String β) :
    (Except.ok a : Except String α) >>= f = f a := rfl

theorem ebind_error {α β : Type} (e : String) (f : α → Except String β) :
    (Except.error e : Except String α) >>= f = .error e := rfl

theorem ebind_pure {α β : Type} (a : α) (f : α → Except String β) :
    (pure a : Except String α) >>= f = f a := rfl

theorem exceptMapM_forall₂ {α β : Type} (f : α → Except String β) (l : List α) (ys : List β)
    (h : exceptMapM f l = .ok ys) : List.Forall₂ (fun a b => f a = .ok b) l ys := by
  induction l generalizing ys with
  | nil =>
    simp only [exceptMapM] at h
    cases h
    exact .nil
  | cons a as ih =>
    simp only [exceptMapM] at h
    cases hfa : f a with
    | error e => rw [hfa, ebind_error] at h; cases h
    | ok b =>
      rw [hfa, ebind_ok] at h
      cases hrest : exceptMapM f as with
      | error e => rw [hrest, ebind_error] at h; cases h
      | ok bs =>
        rw [hrest, ebind_ok] at h
        cases h
        exact .cons hfa (ih bs hrest)

/-! RunCycle dispatch lemmas (C1). -/

theorem runCycleChan_shape (kvs : Dict) (lk : JDict) (kn : String × String) (d : Dict)
    (h : runCycleChan kvs lk kn = .ok d) :
    ∃ ci, d = [("Channel", JVal.str kn.2), ("ChannelInfo", JVal.objOf ci)] := by
  unfold runCycleChan at h
  cases h1 : asObj (dget kvs kn.1 .nilO) with
  | error e => rw [h1, ebind_error] at h; cases h
  | ok dc =>
    rw [h1, ebind_ok] at h
    cases h2 : runCycleChanInfo dc lk with
    | error e => rw [h2, ebind_error] at h; cases h
    | ok ci =>
      rw [h2, ebind_ok] at h
      cases h
      exact ⟨ci, rfl⟩

/-! The formatted versions of the 22 step-table column names. -/

theorem fcRunCycleNumber : format_column_header "RunCycleNumber" = "Run\nCycle\nNumber" := by decide
theorem fcBlockType : format_column_header "BlockType" = "Block\nType" := by decide
theorem fcAntigen : format_column_header "Antigen" = "Antigen" := by decide
theorem fcChannel : format_column_header "Channel" = "Channel" := by decide
theorem fcMagnification : format_column_header "Magnification" = "Magnification" := by decide
theorem fcClone : format_column_header "Clone" = "Clone" := by decide
theorem fcDilutionFactor : format_column_header "DilutionFactor" = "Dilution\nFactor" := by decide
theorem fcIncubationTime : format_column_header "IncubationTime" = "Incubation\nTime" := by decide
theorem fcReagentExposure : format_column_header "ReagentExposure" = "Reagent\nExposure" := by decide
theorem fcCoefficient : format_column_header "Coefficient" = "Coefficient" := by decide
theorem fcActualExposure : format_column_header "ActualExposure" = "Actual\nExposure" := by decide
theorem fcErasingMethod : format_column_header "ErasingMethod" = "Erasing\nMethod" := by decide
theorem fcBleachingEnergy : format_column_header "BleachingEnergy" = "Bleaching\nEnergy" := by decide
theorem fcValidatedFor : format_column_header "ValidatedFor" = "Validated\nFor" := by decide
theorem fcAntibody : format_column_header "Antibody" = "Antibody" := by decide
theorem fcAntibodyType : format_column_header "AntibodyType" = "Antibody\nType" := by decide
theorem fcHostSpecies : format_column_header "HostSpecies" = "Host\nSpecies" := by decide
theorem fcIsotype : format_column_header "Isotype" = "Isotype" := by decide
theorem fcManufacturer : format_column_header "Manufacturer" = "Manufacturer" := by decide
theorem fcOrderNumber : format_column_header "OrderNumber" = "Order\nNumber" := by decide
theorem fcSpecies : format_column_header "Species" = "Species" := by decide
theorem fcName : format_column_header "Name" = "Name" := by decide

theorem dget_nil (k : String) (dflt : JVal) : dget [] k dflt = dflt := rfl

theorem dget_cons (k1 : String) (v : JVal) (tl : Dict) (k2 : String) (dflt : JVal) :
    dget ((k1, v) :: tl) k2 dflt = if k1 == k2 then v else dget tl k2 dflt := by
  unfold dget dgetOpt
  rw [List.find?_cons]
  cases h : (k1 == k2) <;> simp [h]

/-- The RunCycle row of `process_block`, written out: formatted keys in
the fixed column order, values drawn from the channel record. -/
theorem runRowOf_eq (bt mag : String) (rcn : JVal) (chan : Dict) :
    runRowOf bt mag rcn chan =
      [("Run\nCycle\nNumber", rcn), ("Block\nType", JVal.str bt),
        ("Antigen", dget (chanInfoOf chan) "Antigen" (JVal.str "")), ("Channel", dget chan "Channel" JVal.null),
        ("Magnification", JVal.str mag), ("Clone", dget (chanInfoOf chan) "Clone" (JVal.str "")),
        ("Dilution\nFactor", dget (chanInfoOf chan) "DilutionFactor" (JVal.str "")),
        ("Incubation\nTime", dget (chanInfoOf chan) "IncubationTime" (JVal.str "")),
        ("Reagent\nExposure", dget (chanInfoOf chan) "ReagentExposureTime" (JVal.str "")),
        ("Coefficient", dget (chanInfoOf chan) "ExposureCoefficient" (JVal.str "")),
        ("Actual\nExposure", dget (chanInfoOf chan) "ActualExposureTime" (JVal.str "")),
        ("Erasing\nMethod", dget (chanInfoOf chan) "ErasingMethod" (JVal.str "")),
        ("Bleaching\nEnergy", dget (chanInfoOf chan) "BleachingEnergy" (JVal.str "")),
        ("Validated\nFor", dget (chanInfoOf chan) "ValidatedFor" (JVal.str "")),
        ("Antibody", dget (chanInfoOf chan) "Antibody" (JVal.str "")),
        ("Antibody\nType", dget (chanInfoOf chan) "AntibodyType" (JVal.str "")),
        ("Host\nSpecies", dget (chanInfoOf chan) "HostSpecies" (JVal.str "")),
        ("Isotype", dget (chanInfoOf chan) "Isotype" (JVal.str "")),
        ("Manufacturer", dget (chanInfoOf chan) "Manufacturer" (JVal.str "")),
        ("Order\nNumber", dget (chanInfoOf chan) "OrderNumber" (JVal.str "")),
        ("Species", dget (chanInfoOf chan) "Species" (JVal.str "")),
        ("Name", dget (chanInfoOf chan) "Name" (JVal.str ""))] := by
  unfold runRowOf create_ordered_row column_order format_dict_headers
  simp only [List.map_cons, List.map_nil, List.foldl_cons, List.foldl_nil,
    fcRunCycleNumber, fcBlockType, fcAntigen, fcChannel, fcMagnification, fcClone, fcDilutionFactor, fcIncubationTime, fcReagentExposure, fcCoefficient, fcActualExposure, fcErasingMethod, fcBleachingEnergy, fcValidatedFor, fcAntibody, fcAntibodyType, fcHostSpecies, fcIsotype, fcManufacturer, fcOrderNumber, fcSpecies, fcName,
    dset, dget_cons, dget_nil, List.any_cons, List.any_nil, beq_self_eq_true,
    Bool.or_true, Bool.true_or, Bool.or_false, Bool.false_or]
  simp

theorem runRowOf_channel (bt mag : String) (rcn : JVal) (chan : Dict) :
    dget (runRowOf bt mag rcn chan) "Channel" .null = dget chan "Channel" .null := by
  rw [runRowOf_eq]
  simp [dget_cons, dget_nil]

/-- C1 (amended): for a RunCycle-kind step, whenever dispatch succeeds
it yields exactly five rows in the fixed order DAPI, FITC, PE, APC,
Vio780 provided the step's reagents mapping is truthy (non-empty) — but
an empty or absent reagents mapping yields zero rows, not five. -/
theorem c1_run_cycle_five_rows (block : Dict) (lk : JDict) (rows : List Dict)
    (hbt : get_block_type block = .ok "RunCycle")
    (hok : process_block block lk = .ok rows) :
    (truthy (dget block "reagents" .nilO) = true →
      rows.length = 5 ∧
      rows.map (fun r => dget r "Channel" .null) =
        [.str "DAPI", .str "FITC", .str "PE", .str "APC", .str "Vio780"]) ∧
    (truthy (dget block "reagents" .nilO) = false → rows = []) := by
  unfold process_block at hok
  rw [hbt, ebind_ok] at hok
  cases hmag : get_block_magnification block with
  | error e => rw [hmag, ebind_error] at hok; cases hok
  | ok mag =>
    rw [hmag, ebind_ok] at hok
    rw [if_neg (by decide : ¬ ("RunCycle" = "Erase")),
        if_neg (by decide : ¬ ("RunCycle" ≠ "RunCycle"))] at hok
    cases hch : get_run_cycle_channel_info block lk with
    | error e => rw [hch, ebind_error] at hok; cases hok
    | ok chans =>
      rw [hch, ebind_ok] at hok
      cases hok
      unfold get_run_cycle_channel_info at hch
      by_cases htr : truthy (dget block "reagents" .nilO) = true
      · rw [if_neg (by rw [htr]; intro hf; exact hf rfl)] at hch
        cases hkvs : asObj (dget block "reagents" .nilO) with
        | error e => rw [hkvs, ebind_error] at hch; cases hch
        | ok kvs =>
          rw [hkvs, ebind_ok] at hch
          have hf := exceptMapM_forall₂ (runCycleChan kvs lk) channel_order chans hch
          unfold channel_order at hf
          cases hf with | cons h1 hf =>
          cases hf with | cons h2 hf =>
          cases hf with | cons h3 hf =>
          cases hf with | cons h4 hf =>
          cases hf with | cons h5 hf =>
          cases hf
          obtain ⟨ci1, rfl⟩ := runCycleChan_shape _ _ _ _ h1
          obtain ⟨ci2, rfl⟩ := runCycleChan_shape _ _ _ _ h2
          obtain ⟨ci3, rfl⟩ := runCycleChan_shape _ _ _ _ h3
          obtain ⟨ci4, rfl⟩ := runCycleChan_shape _ _ _ _ h4
          obtain ⟨ci5, rfl⟩ := runCycleChan_shape _ _ _ _ h5
          refine ⟨fun _ => ?_, fun hfalse => ?_⟩
          · refine ⟨by simp, ?_⟩
            simp only [List.map_cons, List.map_nil, runRowOf_channel]
            simp [dget_cons]
          · rw [htr] at hfalse
            cases hfalse
      · have htrf : truthy (dget block "reagents" .nilO) = false :=
          Bool.eq_false_iff.mpr htr
        rw [if_pos (by rw [htrf]; intro hf; cases hf)] at hch
        cases hch
        refine ⟨fun htrue => ?_, fun _ => rfl⟩
        rw [htrue] at htrf
        cases htrf

/-! Object round-trip and truthiness lemmas. -/

theorem objEntries_objOf (d : Dict) : objEntries (JVal.objOf d) = some d := by
  induction d with
  | nil => rfl
  | cons kv tl ih =>
    cases kv with | mk k v =>
    simp [JVal.objOf, objEntries, ih]

theorem asObj_objOf (d : Dict) : asObj (JVal.objOf d) = .ok d := by
  unfold asObj
  rw [objEntries_objOf]

theorem truthy_str_iff (s : String) : truthy (JVal.str s) = true ↔ s ≠ "" := by
  simp [truthy]

theorem truthy_num_iff (q : ℚ) : truthy (JVal.num q) = true ↔ q ≠ 0 := by
  simp [truthy]

theorem truthy_objOf_iff (d : Dict) : truthy (JVal.objOf d) = true ↔ d ≠ [] := by
  cases d <;> simp [JVal.objOf, truthy]

theorem dget_eq_of_dgetOpt {d : Dict} {k : String} {v : JVal} (dflt : JVal)
    (h : dgetOpt d k = some v) : dget d k dflt = v := by
  unfold dget
  rw [h]
  rfl

/-- The `ActualExposureTime` field of the updated `chan_info` record,
for arbitrary update values. -/
theorem chanInfo_actual (v1 v2 v3 v4 v5 v6 v7 v8 v9 v10 v11 v12 v13 v14 v15 v16 v17 v18 : JVal) :
    dget (dupdate (FIELDNAMES.map (fun f => (f, JVal.str "")))
      [("Antigen", v1), ("Clone", v2), ("DilutionFactor", v3), ("IncubationTime", v4),
       ("ReagentExposureTime", v5), ("ExposureCoefficient", v6), ("ActualExposureTime", v7),
       ("ErasingMethod", v8), ("BleachingEnergy", v9), ("ValidatedFor", v10),
       ("Antibody", v11), ("AntibodyType", v12), ("HostSpecies", v13), ("Isotype", v14),
       ("Manufacturer", v15), ("Name", v16), ("OrderNumber", v17), ("Species", v18)])
      "ActualExposureTime" .null = v7 := by
  unfold dupdate FIELDNAMES
  simp only [List.map_cons, List.map_nil, List.foldl_cons, List.foldl_nil,
    dset, dget_cons, dget_nil, List.any_cons, List.any_nil, beq_self_eq_true,
    Bool.or_true, Bool.true_or, Bool.or_false, Bool.false_or]
  simp [dget_cons]

/-- C3 (amended): the `ActualExposureTime` cell equals
ReagentExposure × Coefficient / 100 exactly when the catalog's base
exposure time is present and nonzero and the step's
`exposureTimeAndCoefficient` mapping is present and non-empty — even if
the coefficient inside it is 0, in which case the cell is the number 0;
the empty placeholder appears only when the base exposure is absent or
zero or the coefficient mapping is absent or empty. -/
theorem c3_actual_exposure (dc : Dict) (lk : JDict) (reag tc ci : Dict) (bid : String) (e c : ℚ)
    (hbid : dget dc "bucketId" (.str "") = .str bid) (hb : bid ≠ "")
    (hlk : jget lk (.str bid) .nilO = JVal.objOf reag)
    (he : dgetOpt reag "exposureTime" = some (.num e))
    (htc : dgetOpt dc "exposureTimeAndCoefficient" = some (JVal.objOf tc))
    (hc : dget tc "timeCoefficient" (.num 0) = .num c)
    (hok : runCycleChanInfo dc lk = .ok ci) :
    dget ci "ActualExposureTime" .null =
      if e ≠ 0 ∧ tc ≠ [] then .num (e * c / 100) else .str "" := by
  unfold runCycleChanInfo at hok
  rw [hbid, if_pos ((truthy_str_iff bid).mpr hb)] at hok
  rw [show pyDictGet lk (.str bid) .nilO = .ok (jget lk (.str bid) .nilO) from rfl] at hok
  rw [ebind_ok, hlk, asObj_objOf, ebind_ok] at hok
  have hdc : dget dc "exposureTimeAndCoefficient" .nilO = JVal.objOf tc :=
    dget_eq_of_dgetOpt _ htc
  have hdcn : dget dc "exposureTimeAndCoefficient" .null = JVal.objOf tc :=
    dget_eq_of_dgetOpt _ htc
  have hen : dget reag "exposureTime" .null = JVal.num e := dget_eq_of_dgetOpt _ he
  have he0 : dget reag "exposureTime" (.num 0) = JVal.num e := dget_eq_of_dgetOpt _ he
  rw [hdc, asObj_objOf, ebind_ok] at hok
  have hact : actualExposureVal reag dc =
      .ok (if e ≠ 0 ∧ tc ≠ [] then JVal.num (e * c / 100) else .str "") := by
    unfold actualExposureVal
    by_cases hcond : e ≠ 0 ∧ tc ≠ []
    · rw [if_pos (show truthy (dget reag "exposureTime" JVal.null) = true ∧
          truthy (dget dc "exposureTimeAndCoefficient" JVal.null) = true from
        ⟨by rw [hen]; exact (truthy_num_iff e).mpr hcond.1,
         by rw [hdcn]; exact (truthy_objOf_iff tc).mpr hcond.2⟩)]
      rw [hdc, asObj_objOf, ebind_ok, he0, hc, if_pos hcond]
      show Except.ok (JVal.num (pyMulDiv100 e c)) = _
      rw [pyMulDiv100_eq]
    · rw [if_neg (by
        intro ⟨h1, h2⟩
        rw [hen] at h1
        rw [hdcn] at h2
        exact hcond ⟨(truthy_num_iff e).mp h1, (truthy_objOf_iff tc).mp h2⟩)]
      rw [if_neg hcond]
  rw [hact] at hok
  simp only [ebind_pure, ebind_ok] at hok
  cases herase : erasingVal dc with
  | error eE =>
    rw [herase] at hok
    simp only [ebind_error] at hok
    cases hok
  | ok em =>
    rw [herase] at hok
    simp only [ebind_ok] at hok
    have hok2 := Except.ok.inj hok
    rw [← hok2]
    exact chanInfo_actual _ _ _ _ _ _ _ _ _ _ _ _ _ _ _ _ _ _

/-! Erase dispatch lemmas (C8). -/

theorem eraseLoop_eq (chans : List (String × JVal))
    (hwf : ∀ kv ∈ chans, ∃ d, kv.2 = JVal.objOf d ∧
      (truthy (dget d "isEnabled" .null) = true →
        ∃ s, dgetOpt d "fluorochromeType" = some (.str s))) :
    eraseLoop (chans.map (fun kv => kv.2)) =
      .ok ((chans.filterMap eraseSel).map (fun p =>
        ([("Channel", JVal.str p.1),
          ("ChannelInfo", JVal.objOf [("BleachingEnergy", p.2)])] : Dict))) := by
  induction chans with
  | nil => rfl
  | cons kv tl ih =>
    obtain ⟨d, hd, hen⟩ := hwf kv (List.mem_cons_self kv tl)
    have ihtl := ih (fun kv2 h2 => hwf kv2 (List.mem_cons_of_mem kv h2))
    rw [List.map_cons, List.filterMap_cons]
    simp only [eraseLoop, hd, asObj_objOf, ebind_ok]
    by_cases hE : truthy (dget d "isEnabled" .null) = true
    · rw [if_pos hE]
      by_cases hF : dget d "fluorochromeType" .null ≠ JVal.str "FluorochromeType_None"
      · rw [if_pos hF]
        obtain ⟨s, hs⟩ := hen hE
        simp only [hs]
        rw [ihtl, ebind_ok]
        have hsel : eraseSel kv = some (lastSeg s, dget d "bleachingEnergy" (.str "")) := by
          unfold eraseSel
          simp only [hd, objEntries_objOf]
          rw [if_pos ⟨hE, hF⟩]
          simp only [hs]
        rw [hsel]
        rfl
      · rw [if_neg hF]
        have hsel : eraseSel kv = none := by
          unfold eraseSel
          simp only [hd, objEntries_objOf]
          rw [if_neg (fun hc => hF hc.2)]
        rw [hsel, ihtl]
    · rw [if_neg hE]
      have hsel : eraseSel kv = none := by
        unfold eraseSel
        simp only [hd, objEntries_objOf]
        rw [if_neg (fun hc => hE hc.1)]
      rw [hsel, ihtl]

theorem eraseRowOf_spec (mag : String) (p : String × JVal) :
    eraseRowOf "Erase" mag (.str "")
      [("Channel", JVal.str p.1), ("ChannelInfo", JVal.objOf [("BleachingEnergy", p.2)])]
      = eraseRowSpec mag p := by
  unfold eraseRowOf create_ordered_row column_order format_dict_headers chanInfoOf eraseRowSpec
  simp only [dget_cons, dget_nil, beq_self_eq_true, objEntries_objOf]
  simp only [List.map_cons, List.map_nil, List.foldl_cons, List.foldl_nil,
    fcRunCycleNumber, fcBlockType, fcAntigen, fcChannel, fcMagnification, fcClone,
    fcDilutionFactor, fcIncubationTime, fcReagentExposure, fcCoefficient, fcActualExposure,
    fcErasingMethod, fcBleachingEnergy, fcValidatedFor, fcAntibody, fcAntibodyType,
    fcHostSpecies, fcIsotype, fcManufacturer, fcOrderNumber, fcSpecies, fcName,
    dset, dget_cons, dget_nil, List.any_cons, List.any_nil, beq_self_eq_true,
    Bool.or_true, Bool.true_or, Bool.or_false, Bool.false_or]
  simp [dget_cons, objEntries_objOf]

set_option maxHeartbeats 1600000 in
/-- C8: for an Erase-kind step whose photo channels are well-formed
records, dispatch yields exactly one row per channel with a truthy
enabled flag and a fluorochrome label other than the "none" sentinel;
each row carries the channel label and that channel's bleaching energy,
with CycleNumber and all reagent-specific columns empty, and disabled
or "none"-labeled channels contribute no row. -/
theorem c8_erase_dispatch (block : Dict) (lk : JDict) (chans : List (String × JVal)) (mag : String)
    (hbt : get_block_type block = .ok "Erase")
    (hmag : get_block_magnification block = .ok mag)
    (hph : dget block "photos" .nilO = JVal.objOf chans)
    (hwf : ∀ kv ∈ chans, ∃ d, kv.2 = JVal.objOf d ∧
      (truthy (dget d "isEnabled" .null) = true →
        ∃ s, dgetOpt d "fluorochromeType" = some (.str s))) :
    process_block block lk = .ok ((chans.filterMap eraseSel).map (eraseRowSpec mag)) := by
  unfold process_block
  rw [hbt]
  simp only [ebind_ok]
  rw [hmag]
  simp only [ebind_ok]
  simp only [if_true]
  rw [if_neg (by decide : ¬ (("Erase" : String) = "RunCycle"))]
  unfold get_erase_channel_info
  rw [hph]
  rw [show asValues (JVal.objOf chans) = .ok (chans.map (fun kv => kv.2)) from by
    unfold asValues
    rw [asObj_objOf, ebind_ok]]
  simp only [ebind_ok]
  rw [eraseLoop_eq chans hwf]
  simp only [ebind_ok]
  refine congrArg Except.ok ?_
  rw [List.map_map]
  refine List.map_congr_left ?_
  intro p hp
  rw [Function.comp_apply]
  exact eraseRowOf_spec mag p

/-! Reagent Index lemmas (C9). -/

theorem jgetOpt_map_value (l : JDict) (f : JVal → JVal) (k : JVal) :
    jgetOpt (l.map (fun kv => (kv.1, f kv.2))) k = (jgetOpt l k).map f := by
  induction l with
  | nil => rfl
  | cons kv tl ih =>
    unfold jgetOpt
    rw [List.map_cons, List.find?_cons, List.find?_cons]
    cases hk : (kv.1 == k)
    · simp only [hk, cond_false]
      exact ih
    · simp only [hk, cond_true]
      simp

theorem jgetOpt_mem (l : JDict) (k v : JVal) (h : jgetOpt l k = some v) :
    ∃ k2, (k2, v) ∈ l := by
  unfold jgetOpt at h
  cases hf : l.find? (fun kv => kv.1 == k) with
  | none => rw [hf] at h; cases h
  | some kv =>
    rw [hf] at h
    have hm := List.mem_of_find?_eq_some hf
    cases h
    exact ⟨kv.1, hm⟩

theorem jset_values (acc : JDict) (k v : JVal) (kv : JVal × JVal) (h : kv ∈ jset acc k v) :
    kv ∈ acc ∨ kv.2 = v := by
  unfold jset at h
  split at h
  · rcases List.mem_map.mp h with ⟨kv0, hkv0, heq⟩
    by_cases hk : kv0.1 == k
    · rw [if_pos (by simpa using hk)] at heq
      right
      rw [← heq]
    · rw [if_neg (by simpa using hk)] at heq
      left
      rw [← heq]
      exact hkv0
  · rcases List.mem_append.mp h with h1 | h2
    · left; exact h1
    · right
      rcases List.mem_singleton.mp h2 with rfl
      rfl

theorem exceptFoldl_invariant {α β : Type} (P : β → Prop) (f : β → α → Except String β)
    (hf : ∀ b a b2, P b → f b a = .ok b2 → P b2)
    (b0 : β) (l : List α) (bEnd : β) (h0 : P b0)
    (h : exceptFoldl f b0 l = .ok bEnd) : P bEnd := by
  induction l generalizing b0 with
  | nil =>
    simp only [exceptFoldl] at h
    cases h
    exact h0
  | cons a as ih =>
    simp only [exceptFoldl] at h
    cases hfa : f b0 a with
    | error e => rw [hfa, ebind_error] at h; cases h
    | ok b1 =>
      rw [hfa, ebind_ok] at h
      exact ih b1 (hf b0 a b1 h0 hfa) h

/-- Every value stored in the reagent catalogue is an object. -/
theorem buildCatalogue_values (data : Dict) (cat : JDict)
    (h : buildCatalogue data = .ok cat) :
    ∀ kv ∈ cat, ∃ d, kv.2 = JVal.objOf d := by
  unfold buildCatalogue at h
  cases hrs : asIter (dget data "reagents" .nilA) with
  | error e => rw [hrs, ebind_error] at h; cases h
  | ok rs =>
    rw [hrs, ebind_ok] at h
    refine exceptFoldl_invariant (fun acc => ∀ kv ∈ acc, ∃ d, kv.2 = JVal.objOf d)
      _ ?_ [] rs cat (by intro kv hkv; cases hkv) h
    intro acc r acc2 hacc hstep
    cases hrd : asObj r with
    | error e => rw [hrd, ebind_error] at hstep; cases hstep
    | ok rd =>
      rw [hrd, ebind_ok] at hstep
      cases hid : dgetOpt rd "id" with
      | none => simp only [hid] at hstep; cases hstep
      | some idv =>
        simp only [hid] at hstep
        split at hstep
        · cases hstep
          intro kv hkv
          rcases jset_values acc idv (catEntry rd) kv hkv with hold | hnew
          · exact hacc kv hold
          · exact ⟨_, hnew⟩
        · cases hstep

theorem jget_def (d : JDict) (k dflt : JVal) :
    jget d k dflt = (jgetOpt d k).getD dflt := rfl

/-- C9: Reagent Index lookup is total — every lookup in the index built
by `build_bucket_lookup` returns an object record; an unregistered slot
resolves to the all-empty record, and a slot whose reagent identifier
is absent from the catalogue maps to the all-empty record. -/
theorem c9_lookup_total (data : Dict) (b2r cat lk : JDict) (bid : JVal)
    (hb : buildB2R data = .ok b2r) (hc : buildCatalogue data = .ok cat)
    (hl : build_bucket_lookup data = .ok lk) :
    (∃ fields, jget lk bid (JVal.objOf []) = JVal.objOf fields) ∧
    (jgetOpt lk bid = none → jget lk bid (JVal.objOf []) = JVal.objOf []) ∧
    (∀ rid, jgetOpt b2r bid = some rid → jgetOpt cat rid = none →
      jget lk bid (JVal.objOf []) = JVal.objOf []) := by
  unfold build_bucket_lookup at hl
  rw [hb, ebind_ok, hc, ebind_ok] at hl
  have hlk : lk = b2r.map (fun kv => (kv.1, jget cat kv.2 .nilO)) := (Except.ok.inj hl).symm
  subst hlk
  refine ⟨?_, ?_, ?_⟩
  · rw [jget_def, jgetOpt_map_value b2r (fun v => jget cat v .nilO) bid]
    cases hopt : jgetOpt b2r bid with
    | none => exact ⟨[], rfl⟩
    | some rid =>
      simp only [Option.map_some', Option.getD_some]
      rw [jget_def]
      cases hrid : jgetOpt cat rid with
      | none => exact ⟨[], rfl⟩
      | some v =>
        simp only [Option.getD_some]
        obtain ⟨k2, hmem⟩ := jgetOpt_mem cat rid v hrid
        obtain ⟨d, hd⟩ := buildCatalogue_values data cat hc (k2, v) hmem
        exact ⟨d, hd⟩
  · intro hnone
    rw [jget_def, hnone]
    rfl
  · intro rid hrid hnone
    rw [jget_def, jgetOpt_map_value b2r (fun v => jget cat v .nilO) bid, hrid]
    simp only [Option.map_some', Option.getD_some]
    rw [jget_def, hnone]
    rfl


/-- C1 counterexample: a RunCycle step with an empty reagents mapping
dispatches to zero rows, not five. -/
theorem c1_run_cycle_empty_counterexample :
    get_block_type exC1empty = .ok "RunCycle" ∧
    truthy (dget exC1empty "reagents" .nilO) = false ∧
    process_block exC1empty [] = .ok [] ∧ ([] : List Dict).length ≠ 5 :=
  ⟨by decide, by decide, by decide, by decide⟩

/-- Witness for C1 at a concrete RunCycle step with one populated slot. -/
theorem c1_run_cycle_five_rows_witness :
    get_block_type exC1 = .ok "RunCycle" ∧
    process_block exC1 [] = .ok exC1rows ∧
    exC1rows.length = 5 ∧
    exC1rows.map (fun r => dget r "Channel" .null) =
      [.str "DAPI", .str "FITC", .str "PE", .str "APC", .str "Vio780"] := by
  have h := c1_run_cycle_five_rows exC1 [] exC1rows (by decide) (by decide)
  exact ⟨by decide, by decide, (h.1 (by decide)).1, (h.1 (by decide)).2⟩

/-- C3 counterexample: base exposure 56 with coefficient 0 produces the
number 0 in the ActualExposure cell of the dispatched row, not the
empty placeholder. -/
theorem c3_actual_exposure_zero_counterexample :
    (process_block exC3 exC3lk).map
        (fun rows => dget (rows.getD 0 []) "Actual\nExposure" .null) = .ok (.num 0) ∧
    JVal.num 0 ≠ JVal.str "" :=
  ⟨by decide, by decide⟩

/-- Witness for C3 at the spec's own example: exposure 56, coefficient
330. -/
theorem c3_actual_exposure_witness :
    runCycleChanInfo exC3dc exC3lk = .ok exC3ci ∧
    dget exC3ci "ActualExposureTime" .null =
      (if (56 : ℚ) ≠ 0 ∧ ([("timeCoefficient", JVal.num 330)] : Dict) ≠ [] then
        JVal.num (56 * 330 / 100) else .str "") := by
  refine ⟨by decide, ?_⟩
  exact c3_actual_exposure exC3dc exC3lk [("exposureTime", JVal.num 56)]
    [("timeCoefficient", JVal.num 330)] exC3ci "b1" 56 330
    (by decide) (by decide) (by decide) (by decide) (by decide) (by decide) (by decide)

/-- Witness for C4 on a Scan/RunCycle/RunCycle block list. -/
theorem c4_cycle_numbering_witness :
    (add_numbers_to_run_cycles exC4blocks).length = exC4blocks.length ∧
    runNumsOf (add_numbers_to_run_cycles exC4blocks) =
      (List.range' 1 (runCycleCount exC4blocks)).map (fun i => JVal.num ((i : ℕ) : ℚ)) ∧
    (add_numbers_to_run_cycles exC4blocks).getD 0 [] = exC4blocks.getD 0 [] := by
  have h := c4_cycle_numbering exC4blocks
  exact ⟨h.1, h.2.1, h.2.2 0 (by decide)⟩

/-- Witness for C7 on concrete one-record heaps. -/
theorem c7_sequencer_mutation_witness :
    ((propagate_magnification_heap exC7heap [0]).1).take exC7heap.length = exC7heap ∧
    hGet ((add_numbers_to_run_cycles_heap exC7scan [0]).1) 0 = hGet exC7scan 0 ∧
    (add_numbers_to_run_cycles_heap exC7heap [0]).2 = [0] := by
  have h := c7_sequencer_mutation
  exact ⟨h.1 exC7heap [0], h.2.1 exC7scan [0] 0 (by decide), h.2.2 exC7heap [0]⟩

/-- Witness for C8 at the spec's example: three enabled channels and a
disabled Vio780 produce exactly three rows. -/
theorem c8_erase_dispatch_witness :
    get_block_type exC8 = .ok "Erase" ∧
    get_block_magnification exC8 = .ok "N/A" ∧
    (exC8chans.filterMap eraseSel).length = 3 ∧
    process_block exC8 [] = .ok ((exC8chans.filterMap eraseSel).map (eraseRowSpec "N/A")) := by
  have hwf : ∀ kv ∈ exC8chans, ∃ d, kv.2 = JVal.objOf d ∧
      (truthy (dget d "isEnabled" .null) = true →
        ∃ s, dgetOpt d "fluorochromeType" = some (.str s)) := by
    intro kv hkv
    fin_cases hkv
    · exact ⟨_, rfl, fun _ => ⟨"FluorochromeType_FITC", by decide⟩⟩
    · exact ⟨_, rfl, fun _ => ⟨"FluorochromeType_PE", by decide⟩⟩
    · exact ⟨_, rfl, fun _ => ⟨"FluorochromeType_APC", by decide⟩⟩
    · exact ⟨_, rfl, fun _ => ⟨"FluorochromeType_Vio780", by decide⟩⟩
  refine ⟨by decide, by decide, by decide, ?_⟩
  exact c8_erase_dispatch exC8 [] exC8chans "N/A" (by decide) (by decide) (by decide) hwf

/-- Witness for C9 on a document with one resolvable and one
unresolvable slot link: the unknown slot "zzz" and the unresolvable
slot "bucket2" both resolve to records (the all-empty one). -/
theorem c9_lookup_total_witness :
    buildB2R exC9data = .ok exC9b2r ∧
    buildCatalogue exC9data = .ok exC9cat ∧
    build_bucket_lookup exC9data = .ok exC9lk ∧
    (∃ fields, jget exC9lk (.str "zzz") (JVal.objOf []) = JVal.objOf fields) ∧
    jget exC9lk (.str "bucket2") (JVal.objOf []) = JVal.objOf [] := by
  refine ⟨by decide, by decide, by decide, ?_, ?_⟩
  · exact (c9_lookup_total exC9data exC9b2r exC9cat exC9lk (.str "zzz")
      (by decide) (by decide) (by decide)).1
  · exact (c9_lookup_total exC9data exC9b2r exC9cat exC9lk (.str "bucket2")
      (by decide) (by decide) (by decide)).2.2 (.str "missing") (by decide) (by decide)
